import Mathlib

/-
Verification of the U-value and condensation calculator (src/main.py).

The Python source is shallowly embedded over the real numbers: Python floats
become `ℝ`, object mutation becomes explicit state passing (a method that
mutates `self` becomes a function returning the updated value), and Python's
`ZeroDivisionError` is modelled, where a claim is about it, by `Option`-valued
variants (`pydiv`, `Layer.ResistivityE`, `Construction.ResistanceE`,
`Construction.UE`, `Construction.UpdateLayersE`) in which `none` / a `true`
flag marks the raise.
Where hypotheses guarantee nonzero denominators, the total-division versions
coincide with the Python semantics.
-/

noncomputable section

namespace UVal

open Real

/-! ## Psychrometrics (src/main.py lines 4-17): stateless conversions. -/

/-- `Psychrometrics.SaturationPressure` (line 6-8): Buck equation, in Pa. -/
def Psychrometrics.SaturationPressure (temperature : ℝ) : ℝ :=
  0.61121 * Real.exp ((18.678 - temperature / 234.5) * (temperature / (257.14 + temperature))) * 1000

/-- `Psychrometrics.VapourPressure` (line 10-11). -/
def Psychrometrics.VapourPressure (temperature relative_humidity : ℝ) : ℝ :=
  Psychrometrics.SaturationPressure temperature * relative_humidity / 100

/-- `Psychrometrics.DewPoint` (line 13-14): inverse log form (Magnus-style constants). -/
def Psychrometrics.DewPoint (vapour_pressure : ℝ) : ℝ :=
  (Real.log (vapour_pressure / 610.78) * 237.3) / (17.27 - Real.log (vapour_pressure / 610.78))

/-- `Psychrometrics.RelativeHumidity` (line 16-17). -/
def Psychrometrics.RelativeHumidity (temperature vapour_pressure : ℝ) : ℝ :=
  vapour_pressure / Psychrometrics.SaturationPressure temperature * 100

/-! ## Material (lines 45-73). -/

structure Material where
  conductivity : ℝ
  vapour_resistivity : ℝ
  density : ℝ
  heat_capacity : ℝ
  name : String

/-- `Material()` defaults (line 47). -/
def Material.default : Material := ⟨2.0, 0.6, 2400, 900, "Default Material - Concrete"⟩

/-- `Material().Air` preset (line 57). -/
def Material.Air : Material := ⟨0.025, 1, 1.2, 1000, "Air"⟩

/-- `Material().Concrete` preset (line 61). -/
def Material.Concrete : Material := ⟨2.0, 80, 2400, 900, "Concrete"⟩

/-- `Material().Cork` preset (line 65). -/
def Material.Cork : Material := ⟨0.05, 5, 160, 1800, "Cork"⟩

/-- `Material().Lamination` preset (line 69). -/
def Material.Lamination : Material := ⟨0.13, 30, 500, 1600, "Lamination"⟩

/-- `Material().VapourRetarder` preset (line 73). -/
def Material.VapourRetarder : Material := ⟨0.25, 70000, 1230, 10000, "Vapour Retarder"⟩

/-! ## Layer (lines 75-120). -/

structure Layer where
  material : Material
  thickness : ℝ
  xi : ℝ
  ti : ℝ
  dt : ℝ
  pi : ℝ
  dp : ℝ

/-- `Layer.__init__` (lines 77-84): stores material and thickness and the
meaningless defaults of the computed fields. -/
def Layer.init (material : Material) (thickness : ℝ) : Layer :=
  ⟨material, thickness, 0.0, 15.0, -5.0, 2000, -300⟩

/-- `Layer.Conductivity` property (lines 86-88). -/
def Layer.Conductivity (l : Layer) : ℝ := l.material.conductivity

/-- `Layer.Resistivity` property (lines 90-92), total-division version. -/
def Layer.Resistivity (l : Layer) : ℝ := l.thickness / l.material.conductivity

/-- `Layer.VapourResistivity` property (lines 94-96). -/
def Layer.VapourResistivity (l : Layer) : ℝ := l.material.vapour_resistivity * l.thickness

/-- `Layer.te` property (lines 98-100). -/
def Layer.te (l : Layer) : ℝ := l.ti + l.dt

/-- `Layer.pe` property (lines 102-104). -/
def Layer.pe (l : Layer) : ℝ := l.pi + l.dp

/-- `Layer.xe` property (lines 118-120). -/
def Layer.xe (l : Layer) : ℝ := l.xi + l.thickness

/-! ## Construction (lines 123-191). -/

structure Construction where
  layers : List Layer
  Ti : ℝ
  Te : ℝ
  Hi : ℝ
  He : ℝ

/-- `Construction.Thickness` property (lines 136-141): running sum of thicknesses. -/
def Construction.Thickness (c : Construction) : ℝ := (c.layers.map Layer.thickness).sum

/-- `Construction.Resistance` property (lines 143-148): running sum of resistivities. -/
def Construction.Resistance (c : Construction) : ℝ := (c.layers.map Layer.Resistivity).sum

/-- `Construction.VapourResistance` property (lines 150-155). -/
def Construction.VapourResistance (c : Construction) : ℝ :=
  (c.layers.map Layer.VapourResistivity).sum

/-- `Construction.U` property (lines 157-159), total-division version. -/
def Construction.U (c : Construction) : ℝ := 1 / c.Resistance

/-- `Construction.dT` property (lines 161-163). -/
def Construction.dT (c : Construction) : ℝ := c.Te - c.Ti

/-- `Construction.Pi` property (lines 165-167). -/
def Construction.Pi (c : Construction) : ℝ := Psychrometrics.VapourPressure c.Ti c.Hi

/-- `Construction.Pe` property (lines 169-171). -/
def Construction.Pe (c : Construction) : ℝ := Psychrometrics.VapourPressure c.Te c.He

/-- `Construction.dP` property (lines 173-175). -/
def Construction.dP (c : Construction) : ℝ := c.Pe - c.Pi

/-- The loop body of `Construction.UpdateLayers` (lines 177-191): walks the layer
list threading the running temperature `T`, vapour pressure `P` and depth `X`,
overwriting each layer's computed fields.  `R`, `Rv`, `dT`, `dP` are the
construction-level totals, which the loop cannot change (it never touches
thickness or material). -/
def updateLayersAux (R Rv dT dP : ℝ) : List Layer → ℝ → ℝ → ℝ → List Layer
  | [], _, _, _ => []
  | l :: ls, T, P, X =>
    { l with dt := l.Resistivity / R * dT, ti := T,
             dp := l.VapourResistivity / Rv * dP, pi := P, xi := X } ::
      updateLayersAux R Rv dT dP ls (T + l.Resistivity / R * dT)
        (P + l.VapourResistivity / Rv * dP) (X + l.thickness)

/-- `Construction.UpdateLayers` (lines 177-191), total-division version: returns
the construction as it stands after the mutation pass. -/
def Construction.UpdateLayers (c : Construction) : Construction :=
  { c with layers := updateLayersAux c.Resistance c.VapourResistance c.dT c.dP c.layers c.Ti c.Pi 0 }

/-- `Construction.__init__` (lines 125-133): stores the layer list, the default
boundary conditions, and runs `UpdateLayers`. -/
def Construction.init (layers : List Layer) : Construction :=
  Construction.UpdateLayers { layers := layers, Ti := 20.0, Te := 5.0, Hi := 50.0, He := 80.0 }

/-! ## Error model for Python's ZeroDivisionError.

Python raises `ZeroDivisionError` on float division by zero (including
`0.0 / 0.0`).  `pydiv` returns `none` exactly in that case. -/

/-- Python float division: `none` models a raised `ZeroDivisionError`. -/
def pydiv (a b : ℝ) : Option ℝ := if b = 0 then none else some (a / b)

/-- `Layer.Resistivity` (lines 90-92) with the raise made explicit: the division
`thickness / conductivity` raises exactly when the conductivity is zero. -/
def Layer.ResistivityE (l : Layer) : Option ℝ := pydiv l.thickness l.material.conductivity

/-- `Construction.Resistance` (lines 143-148) with the raises made explicit:
the loop `rr += layer.Resistivity` raises at the first layer whose conductivity
is zero (inside `layer.Resistivity`); otherwise it accumulates the total. -/
def Construction.ResistanceE (c : Construction) : Option ℝ :=
  c.layers.foldl (fun acc l => acc.bind fun s => (l.ResistivityE).map fun r => s + r) (some 0)

/-- `Construction.U` (lines 157-159) with the raises made explicit: computing
`self.Resistance` raises if any layer has zero conductivity; the division
`1 / ...` raises if the computed total is zero. -/
def Construction.UE (c : Construction) : Option ℝ :=
  c.ResistanceE.bind fun r => pydiv 1 r

/-- The loop of `Construction.UpdateLayers` with the raises made explicit,
following the statement order of lines 182-191.  `RE` is `self.Resistance` as
recomputed in every iteration of line 182 (`Construction.ResistanceE`, constant
across the loop since the pass never writes thickness or material): if it
raises (`none`: a zero-conductivity layer, the same raise also occurring in
`layer.Resistivity`) or its value is zero, the iteration raises before writing
anything; otherwise `layer.dt` and `layer.ti` are written before `layer.dp` is
computed, whose division raises when `Rv = 0` (the vapour totals are products
and sums of floats and never raise); then `layer.pi` and `layer.xi` are
written.  Returns the layer list as it stands when the loop finishes or the
exception propagates, and `true` iff it raised. -/
def updateLayersAuxE (RE : Option ℝ) (Rv dT dP : ℝ) : List Layer → ℝ → ℝ → ℝ → List Layer × Bool
  | [], _, _, _ => ([], false)
  | l :: ls, T, P, X =>
    match RE with
    | none => (l :: ls, true)
    | some R =>
      if R = 0 then (l :: ls, true)
      else if Rv = 0 then ({ l with dt := l.Resistivity / R * dT, ti := T } :: ls, true)
      else
        let rest := updateLayersAuxE RE Rv dT dP ls (T + l.Resistivity / R * dT)
          (P + l.VapourResistivity / Rv * dP) (X + l.thickness)
        ({ l with dt := l.Resistivity / R * dT, ti := T,
                  dp := l.VapourResistivity / Rv * dP, pi := P, xi := X } :: rest.1, rest.2)

/-- `Construction.UpdateLayers` (lines 177-191) with the raises made explicit:
the construction as left behind by the pass, and whether it raised. -/
def Construction.UpdateLayersE (c : Construction) : Construction × Bool :=
  ({ c with layers :=
      (updateLayersAuxE c.ResistanceE c.VapourResistance c.dT c.dP c.layers c.Ti c.Pi 0).1 },
   (updateLayersAuxE c.ResistanceE c.VapourResistance c.dT c.dP c.layers c.Ti c.Pi 0).2)

/-! ## Parameters and Model (lines 197-224). -/

structure Parameters where
  interior_temperature : ℝ
  interior_humidity : ℝ
  exterior_temperature : ℝ
  exterior_humidity : ℝ
  interior_contact_distance : ℝ
  exterior_contact_distance : ℝ

/-- `Parameters()` defaults (line 199). -/
def Parameters.default : Parameters := ⟨20.0, 50.0, 5.0, 80.0, 0.00625, 0.001⟩

structure Model where
  parameters : Parameters
  construction : Construction

/-- `Model.__init__` (lines 211-224).  In the source, `layers =
construction.layers` aliases the base construction's list and
`insert`/`append` mutate it in place; the fresh `Construction(layers)` then
shares that same list and its `Layer` objects, which the two `UpdateLayers`
runs mutate.  The second component returned here is the base construction as
it stands after the call: its `layers` attribute is the shared, augmented,
re-solved list (its own boundary fields are untouched). -/
def Model.init (construction : Construction) (parameters : Parameters) : Model × Construction :=
  let layers := Layer.init Material.Air parameters.interior_contact_distance ::
    construction.layers ++ [Layer.init Material.Air parameters.exterior_contact_distance]
  let c0 := Construction.init layers
  let c1 := { c0 with Ti := parameters.interior_temperature, Hi := parameters.interior_humidity,
                      Te := parameters.exterior_temperature, He := parameters.exterior_humidity }
  let c2 := c1.UpdateLayers
  (⟨parameters, c2⟩, { construction with layers := c2.layers })

/-! ## IntermediateConditions (lines 20-42). -/

structure IntermediateConditions where
  layer : Layer
  num_step : ℕ
  step : ℝ
  temperatures : List ℝ
  vapour_pressures : List ℝ
  depths : List ℝ
  dew_points : List ℝ
  relative_humidities : List ℝ

/-- The step count of line 23, `int(math.ceil(thickness / min_step))`: for the
nonnegative quotients the claims are about, `int` conversion of the exact
ceiling is `Int.toNat` of `Int.ceil`. -/
def numStep (thickness min_step : ℝ) : ℕ := (⌈thickness / min_step⌉).toNat

/-- `IntermediateConditions.__init__` (lines 21-41).  The `for i in
range(num_step)` appends are the maps over `List.range`; the final `append`s of
lines 32-34 are the singleton concatenations; the second loop (lines 39-41)
pairs the two lists index by index, which is `zipWith` on the equal-length
lists. -/
def IntermediateConditions.ofLayer (layer : Layer) (min_step : ℝ) : IntermediateConditions :=
  let num_step := numStep layer.thickness min_step
  let temperatures := ((List.range num_step).map
    (fun (i : ℕ) => layer.ti + (i : ℝ) / (num_step : ℝ) * layer.dt)) ++ [layer.te]
  let vapour_pressures := ((List.range num_step).map
    (fun (i : ℕ) => layer.pi + (i : ℝ) / (num_step : ℝ) * layer.dp)) ++ [layer.pe]
  let depths := ((List.range num_step).map
    (fun (i : ℕ) => layer.xi + (i : ℝ) / (num_step : ℝ) * layer.thickness)) ++ [layer.xe]
  ⟨layer, num_step, layer.thickness / (num_step : ℝ), temperatures, vapour_pressures, depths,
   vapour_pressures.map Psychrometrics.DewPoint,
   List.zipWith Psychrometrics.RelativeHumidity temperatures vapour_pressures⟩

/-- `Layer.IntermediateConditions` property (lines 114-116): uses the default
`min_step = 0.005`. -/
def Layer.IC (l : Layer) : IntermediateConditions := IntermediateConditions.ofLayer l 0.005

/-! ## GeometryPrep (lines 226-265). -/

/-- The per-layer loop of `GeometryPrep.__init__` (lines 234-253) for one of the
five parallel profiles: each layer's sample list has its last element popped
(`dropLast`), and the results are concatenated in layer order. -/
def profileConcat (f : Layer → List ℝ) : List Layer → List ℝ
  | [] => []
  | l :: ls => (f l).dropLast ++ profileConcat f ls

structure GeometryPrep where
  model : Model
  xc : List ℝ
  tc : List ℝ
  pc : List ℝ
  dpc : List ℝ
  rhc : List ℝ

/-- `GeometryPrep.__init__` (lines 227-265): concatenate the popped per-layer
discretizations, then append the construction-level exterior values
(lines 255-259). -/
def GeometryPrep.ofModel (model : Model) : GeometryPrep :=
  ⟨model,
   profileConcat (fun l => l.IC.depths) model.construction.layers ++ [model.construction.Thickness],
   profileConcat (fun l => l.IC.temperatures) model.construction.layers ++ [model.construction.Te],
   profileConcat (fun l => l.IC.vapour_pressures) model.construction.layers ++ [model.construction.Pe],
   profileConcat (fun l => l.IC.dew_points) model.construction.layers ++
     [Psychrometrics.DewPoint model.construction.Pe],
   profileConcat (fun l => l.IC.relative_humidities) model.construction.layers ++ [model.construction.He]⟩

/-! ## Helper lemmas about the solving pass. -/

theorem updateLayersAux_length (R Rv dT dP : ℝ) :
    ∀ (ls : List Layer) (T P X : ℝ), (updateLayersAux R Rv dT dP ls T P X).length = ls.length
  | [], _, _, _ => rfl
  | _ :: ls, T, P, X => by
    simp [updateLayersAux, updateLayersAux_length R Rv dT dP ls]

theorem updateLayersAux_map_eq {β : Type} (f : Layer → β)
    (hf : ∀ (l : Layer) (a b c d e : ℝ),
      f { l with dt := a, ti := b, dp := c, pi := d, xi := e } = f l)
    (R Rv dT dP : ℝ) :
    ∀ (ls : List Layer) (T P X : ℝ), (updateLayersAux R Rv dT dP ls T P X).map f = ls.map f
  | [], _, _, _ => rfl
  | l :: ls, T, P, X => by
    simp [updateLayersAux, hf, updateLayersAux_map_eq f hf R Rv dT dP ls]

theorem Layer.Resistivity_update (l : Layer) (a b c d e : ℝ) :
    Layer.Resistivity { l with dt := a, ti := b, dp := c, pi := d, xi := e } = l.Resistivity := rfl

theorem Layer.VapourResistivity_update (l : Layer) (a b c d e : ℝ) :
    Layer.VapourResistivity { l with dt := a, ti := b, dp := c, pi := d, xi := e } =
      l.VapourResistivity := rfl

theorem updateLayersAux_getElem_dtdp (R Rv dT dP : ℝ) :
    ∀ (ls : List Layer) (T P X : ℝ) (i : ℕ)
      (h : i < (updateLayersAux R Rv dT dP ls T P X).length) (h2 : i < ls.length),
      (updateLayersAux R Rv dT dP ls T P X)[i].dt = ls[i].Resistivity / R * dT ∧
      (updateLayersAux R Rv dT dP ls T P X)[i].dp = ls[i].VapourResistivity / Rv * dP
  | [], _, _, _, i, h, h2 => by simp at h2
  | l :: ls, T, P, X, 0, h, h2 => by simp [updateLayersAux]
  | l :: ls, T, P, X, i + 1, h, h2 => by
    simp only [updateLayersAux, List.getElem_cons_succ]
    exact updateLayersAux_getElem_dtdp R Rv dT dP ls _ _ _ i
      (by simpa [updateLayersAux] using Nat.lt_of_succ_lt_succ (by simpa [updateLayersAux] using h))
      (Nat.lt_of_succ_lt_succ h2)

theorem updateLayersAux_getElem_zero (R Rv dT dP : ℝ) :
    ∀ (ls : List Layer) (T P X : ℝ) (h : 0 < (updateLayersAux R Rv dT dP ls T P X).length),
      (updateLayersAux R Rv dT dP ls T P X)[0].ti = T ∧
      (updateLayersAux R Rv dT dP ls T P X)[0].pi = P ∧
      (updateLayersAux R Rv dT dP ls T P X)[0].xi = X
  | [], _, _, _, h => by simp [updateLayersAux] at h
  | l :: ls, T, P, X, h => by simp [updateLayersAux]

theorem updateLayersAux_chain (R Rv dT dP : ℝ) :
    ∀ (ls : List Layer) (T P X : ℝ) (i : ℕ)
      (h : i + 1 < (updateLayersAux R Rv dT dP ls T P X).length)
      (h2 : i < (updateLayersAux R Rv dT dP ls T P X).length),
      (updateLayersAux R Rv dT dP ls T P X)[i + 1].ti =
        ((updateLayersAux R Rv dT dP ls T P X)[i].te) ∧
      (updateLayersAux R Rv dT dP ls T P X)[i + 1].pi =
        ((updateLayersAux R Rv dT dP ls T P X)[i].pe) ∧
      (updateLayersAux R Rv dT dP ls T P X)[i + 1].xi =
        ((updateLayersAux R Rv dT dP ls T P X)[i].xe)
  | [], _, _, _, i, h, h2 => by simp [updateLayersAux] at h
  | l :: ls, T, P, X, 0, h, h2 => by
    have hlen : 0 < (updateLayersAux R Rv dT dP ls (T + l.Resistivity / R * dT)
        (P + l.VapourResistivity / Rv * dP) (X + l.thickness)).length := by
      have := h
      simp only [updateLayersAux, List.length_cons] at this
      omega
    obtain ⟨hti, hpi, hxi⟩ := updateLayersAux_getElem_zero R Rv dT dP ls
      (T + l.Resistivity / R * dT) (P + l.VapourResistivity / Rv * dP) (X + l.thickness) hlen
    simp [updateLayersAux, Layer.te, Layer.pe, Layer.xe, hti, hpi, hxi]
  | l :: ls, T, P, X, i + 1, h, h2 => by
    simp only [updateLayersAux, List.getElem_cons_succ]
    exact updateLayersAux_chain R Rv dT dP ls _ _ _ i
      (by simp only [updateLayersAux, List.length_cons] at h; omega)
      (by simp only [updateLayersAux, List.length_cons] at h2
          simp only [updateLayersAux_length]
          simp only [updateLayersAux_length] at h2
          omega)

/-- The construction used at lines 269-274 of main.py:
concrete 0.3 m, cork 0.2 m, lamination 0.1 m, default boundary conditions. -/
def sampleConstruction : Construction :=
  { layers := [Layer.init Material.Concrete 0.3, Layer.init Material.Cork 0.2,
               Layer.init Material.Lamination 0.1],
    Ti := 20.0, Te := 5.0, Hi := 50.0, He := 80.0 }

/-- C1: for a construction with positive layer thicknesses and conductivities and
nonzero total thermal and vapour resistance, `UpdateLayers` sets each layer's
`dt` to `(resistivity / R) * (Te - Ti)` and `dp` to
`(vapour resistance / Rv) * (Pe - Pi)`, the first layer's `ti`, `pi`, `xi` are
`Ti`, `Pi`, `0`, and each subsequent layer's `ti`, `pi`, `xi` are the previous
layer's `te`, `pe`, `xe`. -/
theorem C1_updateLayers_apportionment (c : Construction)
    (hpos : ∀ l ∈ c.layers, 0 < l.thickness ∧ 0 < l.Conductivity)
    (hR : c.Resistance ≠ 0) (hRv : c.VapourResistance ≠ 0) :
    (∀ (i : ℕ) (h : i < c.UpdateLayers.layers.length) (h2 : i < c.layers.length),
      c.UpdateLayers.layers[i].dt = c.layers[i].Resistivity / c.Resistance * (c.Te - c.Ti) ∧
      c.UpdateLayers.layers[i].dp =
        c.layers[i].VapourResistivity / c.VapourResistance * (c.Pe - c.Pi)) ∧
    (∀ (h : 0 < c.UpdateLayers.layers.length),
      c.UpdateLayers.layers[0].ti = c.Ti ∧ c.UpdateLayers.layers[0].pi = c.Pi ∧
      c.UpdateLayers.layers[0].xi = 0) ∧
    (∀ (i : ℕ) (h : i + 1 < c.UpdateLayers.layers.length)
      (h2 : i < c.UpdateLayers.layers.length),
      c.UpdateLayers.layers[i + 1].ti = (c.UpdateLayers.layers[i].te) ∧
      c.UpdateLayers.layers[i + 1].pi = (c.UpdateLayers.layers[i].pe) ∧
      c.UpdateLayers.layers[i + 1].xi = (c.UpdateLayers.layers[i].xe)) := by
  refine ⟨fun i h h2 => ?_, fun h => ?_, fun i h h2 => ?_⟩
  · exact updateLayersAux_getElem_dtdp c.Resistance c.VapourResistance c.dT c.dP
      c.layers c.Ti c.Pi 0 i h h2
  · exact updateLayersAux_getElem_zero c.Resistance c.VapourResistance c.dT c.dP
      c.layers c.Ti c.Pi 0 h
  · exact updateLayersAux_chain c.Resistance c.VapourResistance c.dT c.dP
      c.layers c.Ti c.Pi 0 i h h2

theorem sampleConstruction_pos :
    ∀ l ∈ sampleConstruction.layers, 0 < l.thickness ∧ 0 < l.Conductivity := by
  simp only [sampleConstruction, Layer.init, Layer.Conductivity, List.mem_cons,
    List.not_mem_nil, or_false, Material.Concrete, Material.Cork, Material.Lamination]
  rintro l (rfl | rfl | rfl) <;> norm_num

theorem sampleConstruction_R_ne : sampleConstruction.Resistance ≠ 0 := by
  simp only [sampleConstruction, Construction.Resistance, Layer.Resistivity, Layer.init,
    Material.Concrete, Material.Cork, Material.Lamination, List.map_cons, List.map_nil,
    List.sum_cons, List.sum_nil]
  norm_num

theorem sampleConstruction_Rv_ne : sampleConstruction.VapourResistance ≠ 0 := by
  simp only [sampleConstruction, Construction.VapourResistance, Layer.VapourResistivity,
    Layer.init, Material.Concrete, Material.Cork, Material.Lamination, List.map_cons,
    List.map_nil, List.sum_cons, List.sum_nil]
  norm_num

/-- Witness for C1 at the sample construction of main.py lines 269-274. -/
theorem C1_witness :
    (∀ l ∈ sampleConstruction.layers, 0 < l.thickness ∧ 0 < l.Conductivity) ∧
    sampleConstruction.Resistance ≠ 0 ∧ sampleConstruction.VapourResistance ≠ 0 ∧
    (∀ (h : 0 < sampleConstruction.UpdateLayers.layers.length),
      sampleConstruction.UpdateLayers.layers[0].ti = sampleConstruction.Ti ∧
      sampleConstruction.UpdateLayers.layers[0].pi = sampleConstruction.Pi ∧
      sampleConstruction.UpdateLayers.layers[0].xi = 0) :=
  ⟨sampleConstruction_pos, sampleConstruction_R_ne, sampleConstruction_Rv_ne,
    (C1_updateLayers_apportionment sampleConstruction sampleConstruction_pos
      sampleConstruction_R_ne sampleConstruction_Rv_ne).2.1⟩

/-- C5: `1/U` is the sum over layers of `thickness_i / conductivity_i`, the
U-value is invariant under permutation of the layer order, and for a single
layer `U` is exactly `conductivity / thickness`. -/
theorem C5_series_resistance_law (c : Construction)
    (hpos : ∀ l ∈ c.layers, 0 < l.thickness ∧ 0 < l.Conductivity) :
    1 / c.U = (c.layers.map fun l => l.thickness / l.material.conductivity).sum ∧
    (∀ c2 : Construction, c.layers.Perm c2.layers → c.U = c2.U) ∧
    (∀ l : Layer, c.layers = [l] → c.U = l.Conductivity / l.thickness) := by
  refine ⟨?_, ?_, ?_⟩
  · rw [Construction.U, one_div_one_div]; rfl
  · intro c2 hp
    rw [Construction.U, Construction.U, Construction.Resistance, Construction.Resistance,
      (hp.map Layer.Resistivity).sum_eq]
  · intro l hl
    rw [Construction.U, Construction.Resistance, hl]
    simp [Layer.Resistivity, Layer.Conductivity, one_div_div]

/-- Witness for C5 at the sample construction. -/
theorem C5_witness :
    (∀ l ∈ sampleConstruction.layers, 0 < l.thickness ∧ 0 < l.Conductivity) ∧
    1 / sampleConstruction.U =
      (sampleConstruction.layers.map fun l => l.thickness / l.material.conductivity).sum :=
  ⟨sampleConstruction_pos,
    (C5_series_resistance_law sampleConstruction sampleConstruction_pos).1⟩

/-! ## Idempotence of the solving pass (C10). -/

theorem updateLayersAux_idem (R Rv dT dP : ℝ) :
    ∀ (ls : List Layer) (T P X : ℝ),
      updateLayersAux R Rv dT dP (updateLayersAux R Rv dT dP ls T P X) T P X =
        updateLayersAux R Rv dT dP ls T P X
  | [], _, _, _ => rfl
  | l :: ls, T, P, X => by
    simp only [updateLayersAux, Layer.Resistivity_update, Layer.VapourResistivity_update,
      updateLayersAux_idem R Rv dT dP ls]

/-- C10: with unchanged boundary conditions and layers, running `UpdateLayers` a
second time reproduces exactly the state after the first run: the solve reads
only boundary fields, thicknesses and material properties, never the fields it
writes. -/
theorem C10_updateLayers_idempotent (c : Construction)
    (hpos : ∀ l ∈ c.layers, 0 < l.thickness ∧ 0 < l.Conductivity)
    (hR : c.Resistance ≠ 0) (hRv : c.VapourResistance ≠ 0) :
    c.UpdateLayers.UpdateLayers = c.UpdateLayers := by
  simp only [Construction.UpdateLayers, Construction.Resistance, Construction.VapourResistance,
    Construction.dT, Construction.dP, Construction.Pi, Construction.Pe,
    Construction.Thickness, Psychrometrics.VapourPressure,
    updateLayersAux_map_eq Layer.Resistivity Layer.Resistivity_update,
    updateLayersAux_map_eq Layer.VapourResistivity Layer.VapourResistivity_update,
    updateLayersAux_idem]

/-- Witness for C10 at the sample construction. -/
theorem C10_witness :
    (∀ l ∈ sampleConstruction.layers, 0 < l.thickness ∧ 0 < l.Conductivity) ∧
    sampleConstruction.UpdateLayers.UpdateLayers = sampleConstruction.UpdateLayers :=
  ⟨sampleConstruction_pos,
    C10_updateLayers_idempotent sampleConstruction sampleConstruction_pos
      sampleConstruction_R_ne sampleConstruction_Rv_ne⟩

/-! ## Error-handling claims (C4, C8). -/

/-- C4 (code evaluation at the failing input): a zero-thickness layer of the
default material (conductivity 2.0) does NOT raise: its resistance contribution
evaluates to a silent `0.0`.  Only a zero conductivity makes the division
`thickness / conductivity` raise. -/
theorem C4_zero_thickness_is_silent :
    Layer.ResistivityE (Layer.init Material.default 0) = some 0 ∧
    Layer.ResistivityE (Layer.init ⟨0, 0.6, 2400, 900, "zero-k"⟩ 0.5) = none := by
  constructor
  · norm_num [Layer.ResistivityE, pydiv, Layer.init, Material.default]
  · norm_num [Layer.ResistivityE, pydiv, Layer.init]

/-- The construction on an empty layer list (both total resistances are zero). -/
def emptyConstruction : Construction :=
  { layers := [], Ti := 20.0, Te := 5.0, Hi := 50.0, He := 80.0 }

/-- A one-layer construction with nonzero conductivity and a zero
vapour resistivity: its total vapour resistance is zero while its total
thermal resistance is 1. -/
def rvZeroConstruction : Construction :=
  { layers := [Layer.init ⟨1, 0, 2400, 900, "no vapour resistance"⟩ 1],
    Ti := 20.0, Te := 5.0, Hi := 50.0, He := 80.0 }

/-- C8 counterexample.  On the empty layer list the total resistance is zero
and reading `U` raises, but the apportionment pass completes without raising —
the loop body never runs — contradicting the claim that both fail.  On a
construction whose total VAPOUR resistance alone is zero, reading `U` succeeds
(returning 1), again contradicting the claim; and when the apportionment pass
raises on the zero vapour total, it has already overwritten the first layer's
`ti` (from its default 15.0 to `Ti = 20.0`), contradicting "no partial results
are produced". -/
theorem C8_counterexample :
    (emptyConstruction.Resistance = 0 ∧ emptyConstruction.UE = none ∧
      emptyConstruction.UpdateLayersE.2 = false) ∧
    (rvZeroConstruction.VapourResistance = 0 ∧ rvZeroConstruction.UE = some 1 ∧
      rvZeroConstruction.UpdateLayersE.2 = true ∧
      rvZeroConstruction.layers.map Layer.ti = [15.0] ∧
      rvZeroConstruction.UpdateLayersE.1.layers.map Layer.ti = [20.0]) := by
  have hRE : rvZeroConstruction.ResistanceE = some 1 := by
    simp only [Construction.ResistanceE, rvZeroConstruction, Layer.ResistivityE, pydiv,
      Layer.init, List.foldl_cons, List.foldl_nil]
    norm_num
  have hRv : rvZeroConstruction.VapourResistance = 0 := by
    simp only [Construction.VapourResistance, rvZeroConstruction, Layer.VapourResistivity,
      Layer.init, List.map_cons, List.map_nil, List.sum_cons, List.sum_nil]
    norm_num
  refine ⟨⟨?_, ?_, rfl⟩, hRv, ?_, ?_, rfl, ?_⟩
  · simp [emptyConstruction, Construction.Resistance]
  · have h : emptyConstruction.ResistanceE = some 0 := rfl
    simp [Construction.UE, h, pydiv]
  · rw [Construction.UE, hRE]
    norm_num [pydiv]
  · rw [show rvZeroConstruction.UpdateLayersE.2 =
        (updateLayersAuxE rvZeroConstruction.ResistanceE rvZeroConstruction.VapourResistance
          rvZeroConstruction.dT rvZeroConstruction.dP rvZeroConstruction.layers
          rvZeroConstruction.Ti rvZeroConstruction.Pi 0).2 from rfl, hRE, hRv]
    norm_num [updateLayersAuxE, rvZeroConstruction]
  · rw [show rvZeroConstruction.UpdateLayersE.1.layers =
        (updateLayersAuxE rvZeroConstruction.ResistanceE rvZeroConstruction.VapourResistance
          rvZeroConstruction.dT rvZeroConstruction.dP rvZeroConstruction.layers
          rvZeroConstruction.Ti rvZeroConstruction.Pi 0).1 from rfl, hRE, hRv]
    norm_num [updateLayersAuxE, rvZeroConstruction]

/-- C8 amended.  For a Construction whose total thermal or vapour resistance
sums to zero: if the computed total thermal resistance is zero, reading the
U-value fails; and if the layer list is nonempty, the per-layer apportionment
pass fails with an error.  But on an empty layer list the apportionment pass
completes without error, leaving the construction untouched (no per-layer
values produced); and an apportionment pass that fails on a zero vapour total
with a nonzero thermal total has already written the first layer's `dt` and
`ti` before raising. -/
theorem C8_amended_singular_boundary (c : Construction) :
    (c.ResistanceE = some 0 → c.UE = none) ∧
    (∀ (l0 : Layer) (ls : List Layer), c.layers = l0 :: ls →
      (c.ResistanceE = some 0 ∨ c.VapourResistance = 0) → c.UpdateLayersE.2 = true) ∧
    (c.layers = [] → c.UpdateLayersE.2 = false ∧ c.UpdateLayersE.1 = c) ∧
    (∀ (l0 : Layer) (ls : List Layer) (R : ℝ), c.layers = l0 :: ls →
      c.ResistanceE = some R → R ≠ 0 → c.VapourResistance = 0 →
      c.UpdateLayersE.1.layers =
        { l0 with dt := l0.Resistivity / R * c.dT, ti := c.Ti } :: ls) := by
  refine ⟨fun h => ?_, fun l0 ls hl h => ?_, fun hl => ?_, fun l0 ls R hl hRE hR hRv => ?_⟩
  · simp [Construction.UE, h, pydiv]
  · rcases h with h | h
    · simp [Construction.UpdateLayersE, hl, h, updateLayersAuxE]
    · rcases hRE : c.ResistanceE with _ | R
      · simp [Construction.UpdateLayersE, hl, hRE, updateLayersAuxE]
      · by_cases hR : R = 0 <;>
          simp [Construction.UpdateLayersE, hl, hRE, h, hR, updateLayersAuxE]
  · constructor
    · simp [Construction.UpdateLayersE, hl, updateLayersAuxE]
    · have haux : (updateLayersAuxE c.ResistanceE c.VapourResistance c.dT c.dP
          c.layers c.Ti c.Pi 0).1 = c.layers := by
        rw [hl]
        simp [updateLayersAuxE]
      show ({ c with layers := (updateLayersAuxE c.ResistanceE c.VapourResistance c.dT c.dP
          c.layers c.Ti c.Pi 0).1 } : Construction) = c
      rw [haux]
  · show (updateLayersAuxE c.ResistanceE c.VapourResistance c.dT c.dP
        c.layers c.Ti c.Pi 0).1 = _
    rw [hl, hRE, hRv]
    simp [updateLayersAuxE, hR]

/-- Witness for C8 at the one-layer construction with zero total vapour
resistance: its layer list is nonempty, so the apportionment pass raises. -/
theorem C8_witness :
    rvZeroConstruction.layers =
      Layer.init ⟨1, 0, 2400, 900, "no vapour resistance"⟩ 1 :: [] ∧
    rvZeroConstruction.VapourResistance = 0 ∧
    rvZeroConstruction.UpdateLayersE.2 = true := by
  have h1 : rvZeroConstruction.layers =
      Layer.init ⟨1, 0, 2400, 900, "no vapour resistance"⟩ 1 :: [] := rfl
  have h2 : rvZeroConstruction.VapourResistance = 0 := by
    simp only [Construction.VapourResistance, rvZeroConstruction, Layer.VapourResistivity,
      Layer.init, List.map_cons, List.map_nil, List.sum_cons, List.sum_nil]
    norm_num
  exact ⟨h1, h2,
    (C8_amended_singular_boundary rvZeroConstruction).2.1 _ _ h1 (Or.inr h2)⟩

/-! ## Model construction and the aliased base layer list (C3). -/

/-- A one-layer base construction. -/
def baseConstruction1 : Construction :=
  { layers := [Layer.init Material.default 0.5], Ti := 20.0, Te := 5.0, Hi := 50.0, He := 80.0 }

/-- C3 counterexample: after building a `Model` from a one-layer base
construction, the base construction's layer list is no longer its original
one-element list — the source aliases and mutates it in place (lines 214-216),
so it now holds the two air films as well. -/
theorem C3_counterexample :
    (Model.init baseConstruction1 Parameters.default).2.layers ≠ baseConstruction1.layers := by
  intro hcontra
  have h1 : (Model.init baseConstruction1 Parameters.default).2.layers.length = 3 := by
    simp [Model.init, Construction.init, Construction.UpdateLayers, updateLayersAux_length,
      baseConstruction1]
  rw [hcontra] at h1
  simp [baseConstruction1] at h1

/-- C3 amended: the model's construction is built on the layer sequence
`[interior air film] ++ base.layers ++ [exterior air film]` (same materials and
thicknesses, solved fields rewritten by `UpdateLayers`); but the base
construction's layer list is NOT left unchanged: it is the very same (aliased)
list, so after `Model.__init__` the base's layers equal the model's layers. -/
theorem C3_amended_model_aliases_base (base : Construction) (params : Parameters) :
    ((Model.init base params).1.construction.layers.map fun l => (l.material, l.thickness)) =
      ((Layer.init Material.Air params.interior_contact_distance :: base.layers ++
        [Layer.init Material.Air params.exterior_contact_distance]).map
          fun l => (l.material, l.thickness)) ∧
    (Model.init base params).2.layers = (Model.init base params).1.construction.layers := by
  constructor
  · simp [Model.init, Construction.init, Construction.UpdateLayers,
      updateLayersAux_map_eq (fun l => (l.material, l.thickness)) (fun l a b c d e => rfl)]
  · rfl

/-! ## Discretization lemmas (C6). -/

/-- The common shape of the three per-layer sample lists built by the loop of
lines 28-31: `num_step` points interpolating from `a` across a total change of
`d`. -/
def sampleList (a d : ℝ) (n : ℕ) : List ℝ :=
  (List.range n).map fun (i : ℕ) => a + (i : ℝ) / (n : ℝ) * d

theorem sampleList_length (a d : ℝ) (n : ℕ) : (sampleList a d n).length = n := by
  simp [sampleList]

theorem sampleList_getElem (a d : ℝ) (n : ℕ) (i : ℕ) (h : i < (sampleList a d n).length) :
    (sampleList a d n)[i] = a + (i : ℝ) / (n : ℝ) * d := by
  simp [sampleList]

theorem sampleList_ne_nil (a d : ℝ) (n : ℕ) (hn : 0 < n) : sampleList a d n ≠ [] := by
  intro h
  have := congrArg List.length h
  simp [sampleList_length] at this
  omega

theorem sampleList_head (a d : ℝ) (n : ℕ) (hn : 0 < n) : (sampleList a d n).head? = some a := by
  obtain ⟨m, rfl⟩ := Nat.exists_eq_add_of_lt hn
  simp [sampleList, List.range_succ_eq_map]

theorem sampleList_pairwise (a d : ℝ) (n : ℕ) (hd : 0 < d) (hn : 0 < n) :
    List.Pairwise (· < ·) (sampleList a d n) := by
  refine List.Pairwise.map _ ?_ (List.pairwise_lt_range n)
  intro i j hij
  have hn2 : (0 : ℝ) < (n : ℝ) := by exact_mod_cast hn
  have : (i : ℝ) / (n : ℝ) < (j : ℝ) / (n : ℝ) := by
    apply div_lt_div_of_pos_right ?_ hn2
    exact_mod_cast hij
  nlinarith

theorem sampleList_bounds (a d : ℝ) (n : ℕ) (hd : 0 < d) :
    ∀ y ∈ sampleList a d n, a ≤ y ∧ y < a + d := by
  intro y hy
  simp only [sampleList, List.mem_map, List.mem_range] at hy
  obtain ⟨i, hi, rfl⟩ := hy
  have hn0 : 0 < n := by omega
  have hn : (0 : ℝ) < (n : ℝ) := by exact_mod_cast hn0
  have h0 : (0 : ℝ) ≤ (i : ℝ) / (n : ℝ) := by positivity
  have h1 : (i : ℝ) / (n : ℝ) < 1 := by
    rw [div_lt_one hn]
    exact_mod_cast hi
  constructor
  · nlinarith
  · nlinarith

/-- With a positive thickness and a positive `min_step`, the chosen step count
is at least one. -/
theorem numStep_pos (t ms : ℝ) (ht : 0 < t) (hms : 0 < ms) : 0 < numStep t ms := by
  have hc : 0 < ⌈t / ms⌉ := Int.ceil_pos.mpr (div_pos ht hms)
  unfold numStep
  omega

theorem IC_depths_dropLast (l : Layer) (ms : ℝ) :
    (IntermediateConditions.ofLayer l ms).depths.dropLast =
      sampleList l.xi l.thickness (numStep l.thickness ms) := by
  simp [IntermediateConditions.ofLayer, sampleList, List.dropLast_concat]

theorem IC_temperatures_dropLast (l : Layer) (ms : ℝ) :
    (IntermediateConditions.ofLayer l ms).temperatures.dropLast =
      sampleList l.ti l.dt (numStep l.thickness ms) := by
  simp [IntermediateConditions.ofLayer, sampleList, List.dropLast_concat]

theorem IC_vapour_pressures_dropLast (l : Layer) (ms : ℝ) :
    (IntermediateConditions.ofLayer l ms).vapour_pressures.dropLast =
      sampleList l.pi l.dp (numStep l.thickness ms) := by
  simp [IntermediateConditions.ofLayer, sampleList, List.dropLast_concat]

/-- C6: for a layer of positive thickness, the discretization picks
`num_step = ceil(thickness / min_step)` (at least 1) and produces exactly
`num_step + 1` samples per quantity: `num_step` interior points linearly
interpolating depth, temperature and vapour pressure at fractions
`i / num_step` between the layer's interior and exterior solved values, plus
the layer's exact exterior value; a 0.2 m layer at the default
`min_step = 0.005` gives 40 steps and 41 samples (see the witness). -/
theorem C6_discretization (l : Layer) (min_step : ℝ)
    (hms : 0 < min_step) (ht : 0 < l.thickness) :
    ((IntermediateConditions.ofLayer l min_step).num_step : ℤ) = ⌈l.thickness / min_step⌉ ∧
    1 ≤ (IntermediateConditions.ofLayer l min_step).num_step ∧
    ((IntermediateConditions.ofLayer l min_step).temperatures.length =
        (IntermediateConditions.ofLayer l min_step).num_step + 1 ∧
      (IntermediateConditions.ofLayer l min_step).vapour_pressures.length =
        (IntermediateConditions.ofLayer l min_step).num_step + 1 ∧
      (IntermediateConditions.ofLayer l min_step).depths.length =
        (IntermediateConditions.ofLayer l min_step).num_step + 1) ∧
    (∀ (i : ℕ) (h : i < (IntermediateConditions.ofLayer l min_step).num_step)
      (h1 : i < (IntermediateConditions.ofLayer l min_step).temperatures.length)
      (h2 : i < (IntermediateConditions.ofLayer l min_step).vapour_pressures.length)
      (h3 : i < (IntermediateConditions.ofLayer l min_step).depths.length),
      (IntermediateConditions.ofLayer l min_step).temperatures[i] =
        l.ti + (i : ℝ) / ((IntermediateConditions.ofLayer l min_step).num_step : ℝ) * (l.te - l.ti) ∧
      (IntermediateConditions.ofLayer l min_step).vapour_pressures[i] =
        l.pi + (i : ℝ) / ((IntermediateConditions.ofLayer l min_step).num_step : ℝ) * (l.pe - l.pi) ∧
      (IntermediateConditions.ofLayer l min_step).depths[i] =
        l.xi + (i : ℝ) / ((IntermediateConditions.ofLayer l min_step).num_step : ℝ) * (l.xe - l.xi)) ∧
    ((IntermediateConditions.ofLayer l min_step).temperatures.getLast? = some l.te ∧
      (IntermediateConditions.ofLayer l min_step).vapour_pressures.getLast? = some l.pe ∧
      (IntermediateConditions.ofLayer l min_step).depths.getLast? = some l.xe) := by
  have hc : 0 < ⌈l.thickness / min_step⌉ := Int.ceil_pos.mpr (div_pos ht hms)
  refine ⟨?_, ?_, ⟨?_, ?_, ?_⟩, ?_, ?_, ?_, ?_⟩
  · simp only [IntermediateConditions.ofLayer]
    exact Int.toNat_of_nonneg (le_of_lt hc)
  · simp only [IntermediateConditions.ofLayer, numStep]
    omega
  · simp [IntermediateConditions.ofLayer]
  · simp [IntermediateConditions.ofLayer]
  · simp [IntermediateConditions.ofLayer]
  · intro i h h1 h2 h3
    have hn : i < numStep l.thickness min_step := by
      simpa [IntermediateConditions.ofLayer] using h
    refine ⟨?_, ?_, ?_⟩
    · rw [show (IntermediateConditions.ofLayer l min_step).temperatures[i] =
          l.ti + (i : ℝ) / ((numStep l.thickness min_step : ℕ) : ℝ) * l.dt from ?_]
      · simp [IntermediateConditions.ofLayer, Layer.te]
      · simp only [IntermediateConditions.ofLayer]
        rw [List.getElem_append_left (by simpa using hn)]
        simp
    · rw [show (IntermediateConditions.ofLayer l min_step).vapour_pressures[i] =
          l.pi + (i : ℝ) / ((numStep l.thickness min_step : ℕ) : ℝ) * l.dp from ?_]
      · simp [IntermediateConditions.ofLayer, Layer.pe]
      · simp only [IntermediateConditions.ofLayer]
        rw [List.getElem_append_left (by simpa using hn)]
        simp
    · rw [show (IntermediateConditions.ofLayer l min_step).depths[i] =
          l.xi + (i : ℝ) / ((numStep l.thickness min_step : ℕ) : ℝ) * l.thickness from ?_]
      · simp [IntermediateConditions.ofLayer, Layer.xe]
      · simp only [IntermediateConditions.ofLayer]
        rw [List.getElem_append_left (by simpa using hn)]
        simp
  · simp [IntermediateConditions.ofLayer]
  · simp [IntermediateConditions.ofLayer]
  · simp [IntermediateConditions.ofLayer]

/-- Witness for C6: the concrete 0.2 m layer at the default `min_step = 0.005`
has exactly 40 steps and 41 sample points. -/
theorem C6_witness :
    0 < (0.005 : ℝ) ∧ 0 < (Layer.init Material.default 0.2).thickness ∧
    (IntermediateConditions.ofLayer (Layer.init Material.default 0.2) 0.005).num_step = 40 ∧
    (IntermediateConditions.ofLayer (Layer.init Material.default 0.2) 0.005).temperatures.length
      = 41 := by
  have hms : (0 : ℝ) < 0.005 := by norm_num
  have ht : 0 < (Layer.init Material.default 0.2).thickness := by norm_num [Layer.init]
  obtain ⟨hn, -, ⟨hlen, -, -⟩, -, -⟩ :=
    C6_discretization (Layer.init Material.default 0.2) 0.005 hms ht
  have hceil : ⌈(Layer.init Material.default 0.2).thickness / (0.005 : ℝ)⌉ = 40 := by
    have : (Layer.init Material.default 0.2).thickness / (0.005 : ℝ) = 40 := by
      norm_num [Layer.init]
    rw [this]
    exact_mod_cast Int.ceil_intCast (40 : ℤ)
  rw [hceil] at hn
  have hnum : (IntermediateConditions.ofLayer (Layer.init Material.default 0.2) 0.005).num_step
      = 40 := by exact_mod_cast hn
  rw [hnum] at hlen
  exact ⟨hms, ht, hnum, hlen⟩

/-! ## The depth invariant of the solving pass and the assembled profile (C2, C7). -/

/-- Each layer's `xi` equals the running depth accumulated from `X`. -/
def xiChain : ℝ → List Layer → Prop
  | _, [] => True
  | X, l :: ls => l.xi = X ∧ xiChain (X + l.thickness) ls

theorem updateLayersAux_xiChain (R Rv dT dP : ℝ) :
    ∀ (ls : List Layer) (T P X : ℝ), xiChain X (updateLayersAux R Rv dT dP ls T P X)
  | [], _, _, _ => trivial
  | l :: ls, T, P, X => by
    simp only [updateLayersAux, xiChain]
    exact ⟨trivial, updateLayersAux_xiChain R Rv dT dP ls _ _ _⟩

theorem updateLayers_xiChain (c : Construction) : xiChain 0 c.UpdateLayers.layers :=
  updateLayersAux_xiChain c.Resistance c.VapourResistance c.dT c.dP c.layers c.Ti c.Pi 0

theorem updateLayers_first (c : Construction) (l0 : Layer) (rest : List Layer)
    (heq : c.UpdateLayers.layers = l0 :: rest) :
    l0.ti = c.Ti ∧ l0.pi = c.Pi ∧ l0.xi = 0 := by
  rcases hc : c.layers with _ | ⟨l1, ls1⟩
  · simp [Construction.UpdateLayers, hc, updateLayersAux] at heq
  · simp only [Construction.UpdateLayers, hc, updateLayersAux, List.cons.injEq] at heq
    obtain ⟨heq1, -⟩ := heq
    rw [← heq1]
    exact ⟨rfl, rfl, rfl⟩

/-- The model construction's layers carry the same materials and thicknesses as
the air-film-augmented base list. -/
theorem model_layers_map {β : Type} (f : Layer → β)
    (hf : ∀ (l : Layer) (a b c d e : ℝ),
      f { l with dt := a, ti := b, dp := c, pi := d, xi := e } = f l)
    (base : Construction) (params : Parameters) :
    ((Model.init base params).1.construction.layers).map f =
      f (Layer.init Material.Air params.interior_contact_distance) ::
        (base.layers.map f ++ [f (Layer.init Material.Air params.exterior_contact_distance)]) := by
  simp [Model.init, Construction.init, Construction.UpdateLayers, updateLayersAux_map_eq f hf]

theorem model_layers_length (base : Construction) (params : Parameters) :
    (Model.init base params).1.construction.layers.length = base.layers.length + 2 := by
  have h := congrArg List.length
    (model_layers_map Layer.thickness (fun _ _ _ _ _ _ => rfl) base params)
  simpa using h

theorem model_layers_thickness_pos (base : Construction) (params : Parameters)
    (hpos : ∀ l ∈ base.layers, 0 < l.thickness)
    (hi : 0 < params.interior_contact_distance)
    (he : 0 < params.exterior_contact_distance) :
    ∀ l ∈ (Model.init base params).1.construction.layers, 0 < l.thickness := by
  intro l hl
  have hmem : l.thickness ∈ ((Model.init base params).1.construction.layers).map Layer.thickness :=
    List.mem_map_of_mem Layer.thickness hl
  rw [model_layers_map Layer.thickness (fun _ _ _ _ _ _ => rfl) base params] at hmem
  simp only [Layer.init, List.mem_cons, List.mem_append, List.mem_map,
    List.mem_singleton, List.not_mem_nil, or_false] at hmem
  rcases hmem with h | ⟨l2, hl2, h⟩ | h
  · rw [h]; exact hi
  · rw [← h]; exact hpos l2 hl2
  · rw [h]; exact he

theorem IC5_depths_dropLast (l : Layer) :
    (l.IC.depths).dropLast = sampleList l.xi l.thickness (numStep l.thickness 0.005) :=
  IC_depths_dropLast l 0.005

theorem IC5_temperatures_dropLast (l : Layer) :
    (l.IC.temperatures).dropLast = sampleList l.ti l.dt (numStep l.thickness 0.005) :=
  IC_temperatures_dropLast l 0.005

theorem IC5_vapour_pressures_dropLast (l : Layer) :
    (l.IC.vapour_pressures).dropLast = sampleList l.pi l.dp (numStep l.thickness 0.005) :=
  IC_vapour_pressures_dropLast l 0.005

theorem depth_profile_sorted :
    ∀ (ls : List Layer) (X : ℝ), xiChain X ls → (∀ l ∈ ls, 0 < l.thickness) →
      List.Pairwise (· < ·)
        (profileConcat (fun l => l.IC.depths) ls ++ [X + (ls.map Layer.thickness).sum]) ∧
      (∀ y ∈ profileConcat (fun l => l.IC.depths) ls ++ [X + (ls.map Layer.thickness).sum],
        X ≤ y)
  | [], X, _, _ => by
    refine ⟨by simp [profileConcat], ?_⟩
    intro y hy
    simp only [profileConcat, List.map_nil, List.sum_nil, List.nil_append,
      List.mem_singleton] at hy
    simp [hy]
  | l :: ls, X, hch, hpos => by
    obtain ⟨hxi, hch2⟩ := hch
    have ht : 0 < l.thickness := hpos l (List.mem_cons_self l ls)
    have hpos2 : ∀ l2 ∈ ls, 0 < l2.thickness := fun l2 h2 => hpos l2 (List.mem_cons_of_mem l h2)
    obtain ⟨IH1, IH2⟩ := depth_profile_sorted ls (X + l.thickness) hch2 hpos2
    have hn : 0 < numStep l.thickness 0.005 := numStep_pos l.thickness 0.005 ht (by norm_num)
    have hshape : profileConcat (fun l2 => l2.IC.depths) (l :: ls) ++
        [X + ((l :: ls).map Layer.thickness).sum] =
        sampleList l.xi l.thickness (numStep l.thickness 0.005) ++
          (profileConcat (fun l2 => l2.IC.depths) ls ++
            [X + l.thickness + (ls.map Layer.thickness).sum]) := by
      simp only [profileConcat, IC5_depths_dropLast, List.map_cons, List.sum_cons,
        List.append_assoc]
      simp [add_assoc]
    rw [hshape]
    constructor
    · rw [List.pairwise_append]
      refine ⟨sampleList_pairwise l.xi l.thickness _ ht hn, IH1, ?_⟩
      intro x hx y hy
      have hb := sampleList_bounds l.xi l.thickness _ ht x hx
      have hy2 := IH2 y hy
      rw [hxi] at hb
      linarith [hb.2]
    · intro y hy
      rcases List.mem_append.mp hy with h | h
      · have hb := sampleList_bounds l.xi l.thickness _ ht y h
        rw [hxi] at hb
        linarith [hb.1]
      · have := IH2 y h
        linarith

theorem depth_profile_length :
    ∀ (ls : List Layer) (S : ℝ),
      (profileConcat (fun l => l.IC.depths) ls ++ [S]).length =
        (ls.map fun l => numStep l.thickness 0.005).sum + 1
  | [], S => by simp [profileConcat]
  | l :: ls, S => by
    have IH := depth_profile_length ls S
    simp only [profileConcat, List.append_assoc, List.length_append] at IH ⊢
    rw [IC5_depths_dropLast, sampleList_length]
    simp only [List.map_cons, List.sum_cons]
    omega

theorem depth_profile_head (l : Layer) (ls : List Layer) (S : ℝ) (ht : 0 < l.thickness) :
    (profileConcat (fun l2 => l2.IC.depths) (l :: ls) ++ [S]).head? = some l.xi := by
  have hn : 0 < numStep l.thickness 0.005 := numStep_pos l.thickness 0.005 ht (by norm_num)
  simp only [profileConcat, List.append_assoc, IC5_depths_dropLast]
  rw [List.head?_append_of_ne_nil _ (sampleList_ne_nil _ _ _ hn)]
  exact sampleList_head _ _ _ hn

theorem temp_profile_head (l : Layer) (ls : List Layer) (S : ℝ) (ht : 0 < l.thickness) :
    (profileConcat (fun l2 => l2.IC.temperatures) (l :: ls) ++ [S]).head? = some l.ti := by
  have hn : 0 < numStep l.thickness 0.005 := numStep_pos l.thickness 0.005 ht (by norm_num)
  simp only [profileConcat, List.append_assoc, IC5_temperatures_dropLast]
  rw [List.head?_append_of_ne_nil _ (sampleList_ne_nil _ _ _ hn)]
  exact sampleList_head _ _ _ hn

theorem pressure_profile_head (l : Layer) (ls : List Layer) (S : ℝ) (ht : 0 < l.thickness) :
    (profileConcat (fun l2 => l2.IC.vapour_pressures) (l :: ls) ++ [S]).head? = some l.pi := by
  have hn : 0 < numStep l.thickness 0.005 := numStep_pos l.thickness 0.005 ht (by norm_num)
  simp only [profileConcat, List.append_assoc, IC5_vapour_pressures_dropLast]
  rw [List.head?_append_of_ne_nil _ (sampleList_ne_nil _ _ _ hn)]
  exact sampleList_head _ _ _ hn

/-- C2: the profile's depth sequence is strictly increasing, starts at 0, ends
at the construction's total thickness, has no duplicates, and its sample count
is the sum of the per-layer step counts plus one. -/
theorem C2_depth_profile (base : Construction) (params : Parameters)
    (hpos : ∀ l ∈ base.layers, 0 < l.thickness)
    (hi : 0 < params.interior_contact_distance)
    (he : 0 < params.exterior_contact_distance) :
    List.Pairwise (· < ·) (GeometryPrep.ofModel (Model.init base params).1).xc ∧
    (GeometryPrep.ofModel (Model.init base params).1).xc.head? = some 0 ∧
    (GeometryPrep.ofModel (Model.init base params).1).xc.getLast? =
      some ((Model.init base params).1.construction.Thickness) ∧
    (GeometryPrep.ofModel (Model.init base params).1).xc.Nodup ∧
    (GeometryPrep.ofModel (Model.init base params).1).xc.length =
      (((Model.init base params).1.construction.layers).map
        fun l => (IntermediateConditions.ofLayer l 0.005).num_step).sum + 1 := by
  have hchain : xiChain 0 (Model.init base params).1.construction.layers :=
    updateLayers_xiChain _
  have hposm := model_layers_thickness_pos base params hpos hi he
  have hxc : (GeometryPrep.ofModel (Model.init base params).1).xc =
      profileConcat (fun l => l.IC.depths) (Model.init base params).1.construction.layers ++
        [0 + (((Model.init base params).1.construction.layers).map Layer.thickness).sum] := by
    simp [GeometryPrep.ofModel, Construction.Thickness]
  obtain ⟨key1, -⟩ := depth_profile_sorted
    (Model.init base params).1.construction.layers 0 hchain hposm
  refine ⟨?_, ?_, ?_, ?_, ?_⟩
  · rw [hxc]; exact key1
  · rcases hml : (Model.init base params).1.construction.layers with _ | ⟨l0, rest⟩
    · have hlen := model_layers_length base params
      rw [hml] at hlen
      simp at hlen
    · have ht0 : 0 < l0.thickness := hposm l0 (by rw [hml]; exact List.mem_cons_self l0 rest)
      have hx0 : l0.xi = 0 := by
        rw [hml] at hchain
        exact hchain.1
      rw [hxc, hml, depth_profile_head l0 rest _ ht0, hx0]
  · rw [hxc, List.getLast?_concat]
    rw [Construction.Thickness, zero_add]
  · rw [hxc]
    exact List.Pairwise.imp (fun h => ne_of_lt h) key1
  · rw [hxc, depth_profile_length]
    have hfun : (fun l : Layer => (IntermediateConditions.ofLayer l 0.005).num_step) =
        fun l : Layer => numStep l.thickness 0.005 := rfl
    rw [hfun]

/-- C7: the profile's temperature starts at the construction's `Ti` and ends at
`Te`; its vapour pressure starts at `Pi` and ends at `Pe`. -/
theorem C7_profile_boundary_values (base : Construction) (params : Parameters)
    (hpos : ∀ l ∈ base.layers, 0 < l.thickness ∧ 0 < l.Conductivity)
    (hi : 0 < params.interior_contact_distance)
    (he : 0 < params.exterior_contact_distance) :
    (GeometryPrep.ofModel (Model.init base params).1).tc.head? =
      some ((Model.init base params).1.construction.Ti) ∧
    (GeometryPrep.ofModel (Model.init base params).1).tc.getLast? =
      some ((Model.init base params).1.construction.Te) ∧
    (GeometryPrep.ofModel (Model.init base params).1).pc.head? =
      some ((Model.init base params).1.construction.Pi) ∧
    (GeometryPrep.ofModel (Model.init base params).1).pc.getLast? =
      some ((Model.init base params).1.construction.Pe) := by
  have hposm := model_layers_thickness_pos base params (fun l hl => (hpos l hl).1) hi he
  rcases hml : (Model.init base params).1.construction.layers with _ | ⟨l0, rest⟩
  · have hlen := model_layers_length base params
    rw [hml] at hlen
    simp at hlen
  · have ht0 : 0 < l0.thickness := hposm l0 (by rw [hml]; exact List.mem_cons_self l0 rest)
    obtain ⟨hti, hpi, -⟩ := updateLayers_first _ l0 rest hml
    refine ⟨?_, ?_, ?_, ?_⟩
    · show (profileConcat (fun l => l.IC.temperatures)
          (Model.init base params).1.construction.layers ++
          [(Model.init base params).1.construction.Te]).head? = _
      rw [hml, temp_profile_head l0 rest _ ht0, hti]
      rfl
    · show (profileConcat (fun l => l.IC.temperatures)
          (Model.init base params).1.construction.layers ++
          [(Model.init base params).1.construction.Te]).getLast? = _
      exact List.getLast?_concat _
    · show (profileConcat (fun l => l.IC.vapour_pressures)
          (Model.init base params).1.construction.layers ++
          [(Model.init base params).1.construction.Pe]).head? = _
      rw [hml, pressure_profile_head l0 rest _ ht0, hpi]
      rfl
    · show (profileConcat (fun l => l.IC.vapour_pressures)
          (Model.init base params).1.construction.layers ++
          [(Model.init base params).1.construction.Pe]).getLast? = _
      exact List.getLast?_concat _

theorem baseConstruction1_pos : ∀ l ∈ baseConstruction1.layers, 0 < l.thickness := by
  simp only [baseConstruction1, Layer.init, List.mem_cons, List.not_mem_nil, or_false]
  rintro l rfl
  norm_num

theorem paramsDefault_pos : 0 < Parameters.default.interior_contact_distance ∧
    0 < Parameters.default.exterior_contact_distance := by
  constructor <;> norm_num [Parameters.default]

/-- Witness for C2 at a one-layer base construction with default parameters. -/
theorem C2_witness :
    (∀ l ∈ baseConstruction1.layers, 0 < l.thickness) ∧
    0 < Parameters.default.interior_contact_distance ∧
    0 < Parameters.default.exterior_contact_distance ∧
    List.Pairwise (· < ·)
      (GeometryPrep.ofModel (Model.init baseConstruction1 Parameters.default).1).xc ∧
    (GeometryPrep.ofModel (Model.init baseConstruction1 Parameters.default).1).xc.head? =
      some 0 :=
  ⟨baseConstruction1_pos, paramsDefault_pos.1, paramsDefault_pos.2,
    (C2_depth_profile baseConstruction1 Parameters.default baseConstruction1_pos
      paramsDefault_pos.1 paramsDefault_pos.2).1,
    (C2_depth_profile baseConstruction1 Parameters.default baseConstruction1_pos
      paramsDefault_pos.1 paramsDefault_pos.2).2.1⟩

theorem baseConstruction1_posk :
    ∀ l ∈ baseConstruction1.layers, 0 < l.thickness ∧ 0 < l.Conductivity := by
  simp only [baseConstruction1, Layer.init, Layer.Conductivity, List.mem_cons,
    List.not_mem_nil, or_false, Material.default]
  rintro l rfl
  norm_num

/-- Witness for C7 at a one-layer base construction with default parameters. -/
theorem C7_witness :
    (∀ l ∈ baseConstruction1.layers, 0 < l.thickness ∧ 0 < l.Conductivity) ∧
    0 < Parameters.default.interior_contact_distance ∧
    0 < Parameters.default.exterior_contact_distance ∧
    (GeometryPrep.ofModel (Model.init baseConstruction1 Parameters.default).1).tc.head? =
      some ((Model.init baseConstruction1 Parameters.default).1.construction.Ti) :=
  ⟨baseConstruction1_posk, paramsDefault_pos.1, paramsDefault_pos.2,
    (C7_profile_boundary_values baseConstruction1 Parameters.default baseConstruction1_posk
      paramsDefault_pos.1 paramsDefault_pos.2).1⟩

/-! ## Dew point of saturated air (C9).

`SaturationPressure` uses the Buck constants while `DewPoint` inverts a
Magnus-style curve with different constants (611.21 vs 610.78 Pa), so the
round trip is only approximately the identity.  We prove a bound of 0.1 degC
over the realistic building-physics range -15 degC to 40 degC, by splitting
`log(satP T / 610.78)` into the constant `log(61121/61078)` (bounded by
rationals) plus the Buck exponent, and bounding the resulting rational
function with two polynomial inequalities certified by explicit
nonnegative-combination identities. -/

theorem polyI (T c : ℝ) (h1 : -15 ≤ T) (h2 : T ≤ 40)
    (h3 : 43/61121 ≤ c) (h4 : c ≤ 43/61078) :
    237.3 * (c * (257.14 + T) + (18.678 * T - T^2 / 234.5)) ≤
      (T + 1/10) * (17.27 * (257.14 + T) - c * (257.14 + T) - (18.678 * T - T^2 / 234.5)) := by
  have hu : (0:ℝ) ≤ T + 15 := by linarith
  have hv : (0:ℝ) ≤ 40 - T := by linarith
  have hc : (0:ℝ) ≤ 43/61078 - c := by linarith
  have hD : (0:ℝ) ≤ 257.14 + T := by linarith
  have hT2 : (0:ℝ) ≤ T + 237.4 := by linarith
  have hid : (T + 1/10) * (17.27 * (257.14 + T) - c * (257.14 + T) - (18.678 * T - T^2 / 234.5))
      - 237.3 * (c * (257.14 + T) + (18.678 * T - T^2 / 234.5)) =
      126824196268849/716139550000 + (119770172729/35806977500) * (T + 15)
      + (60949501/511528250) * ((T + 15) * (40 - T))
      + (2/469) * ((T + 15) * ((40 - T) * (40 - T)))
      + (43/61078 - c) * ((257.14 + T) * (T + 237.4)) := by ring
  nlinarith [mul_nonneg hu hv, mul_nonneg hu (mul_nonneg hv hv),
    mul_nonneg hc (mul_nonneg hD hT2), hu, hid]

theorem polyII (T c : ℝ) (h1 : -15 ≤ T) (h2 : T ≤ 40)
    (h3 : 43/61121 ≤ c) (h4 : c ≤ 43/61078) :
    (T - 1/10) * (17.27 * (257.14 + T) - c * (257.14 + T) - (18.678 * T - T^2 / 234.5)) ≤
      237.3 * (c * (257.14 + T) + (18.678 * T - T^2 / 234.5)) := by
  have hu : (0:ℝ) ≤ T + 15 := by linarith
  have hv : (0:ℝ) ≤ 40 - T := by linarith
  have hc : (0:ℝ) ≤ c - 43/61121 := by linarith
  have hD : (0:ℝ) ≤ 257.14 + T := by linarith
  have hT2 : (0:ℝ) ≤ T + 237.2 := by linarith
  have hid : 237.3 * (c * (257.14 + T) + (18.678 * T - T^2 / 234.5))
      - (T - 1/10) * (17.27 * (257.14 + T) - c * (257.14 + T) - (18.678 * T - T^2 / 234.5)) =
      1711797492933/21392350000 + (827923280901/3941540487500) * ((40 - T) * (40 - T))
      + (569533107999/3941540487500) * ((T + 15) * (T + 15))
      + (2/469) * ((T + 15) * ((T + 15) * (40 - T)))
      + (c - 43/61121) * ((257.14 + T) * (T + 237.2)) := by ring
  nlinarith [mul_nonneg hv hv, mul_nonneg hu hu, mul_nonneg hu (mul_nonneg hu hv),
    mul_nonneg hc (mul_nonneg hD hT2), hid]

theorem log_const_ub : Real.log (61121 / 61078) ≤ 43 / 61078 := by
  have h := Real.log_le_sub_one_of_pos (show (0:ℝ) < 61121/61078 by norm_num)
  have h2 : (61121/61078 : ℝ) - 1 = 43/61078 := by norm_num
  linarith

theorem log_const_lb : 43 / 61121 ≤ Real.log (61121 / 61078) := by
  have h := Real.log_le_sub_one_of_pos (show (0:ℝ) < 61078/61121 by norm_num)
  have h2 : Real.log ((61078 : ℝ)/61121) = - Real.log (61121/61078) := by
    rw [show ((61078 : ℝ)/61121) = ((61121 : ℝ)/61078)⁻¹ by norm_num, Real.log_inv]
  have h3 : (61078/61121 : ℝ) - 1 = -(43/61121) := by norm_num
  linarith

theorem satP_log (T : ℝ) (hT : -15 ≤ T) :
    Real.log (Psychrometrics.SaturationPressure T / 610.78) =
      Real.log (61121 / 61078) + (18.678 - T / 234.5) * (T / (257.14 + T)) := by
  have h1 : Psychrometrics.SaturationPressure T / 610.78 =
      (61121 / 61078) * Real.exp ((18.678 - T / 234.5) * (T / (257.14 + T))) := by
    rw [Psychrometrics.SaturationPressure]
    rw [div_eq_iff (by norm_num : (610.78:ℝ) ≠ 0)]
    ring_nf
  rw [h1, Real.log_mul (by norm_num) (Real.exp_ne_zero _), Real.log_exp]

theorem dew_formula_bound (T c : ℝ) (h1 : -15 ≤ T) (h2 : T ≤ 40)
    (h3 : 43/61121 ≤ c) (h4 : c ≤ 43/61078) :
    |((c + (18.678 - T / 234.5) * (T / (257.14 + T))) * 237.3) /
      (17.27 - (c + (18.678 - T / 234.5) * (T / (257.14 + T)))) - T| ≤ 1/10 := by
  have hD : (0:ℝ) < 257.14 + T := by linarith
  have hg : (18.678 - T / 234.5) * (T / (257.14 + T)) =
      (18.678 * T - T^2 / 234.5) / (257.14 + T) := by
    field_simp
    ring
  rw [hg]
  have hq26 : 18.678 * T - T^2 / 234.5 ≤ 2.6 * (257.14 + T) := by
    have hexp : 18.678 * T - T^2 / 234.5 = 18.678 * T - T^2 * (2/469) := by ring
    rw [hexp]
    linarith [sq_nonneg (T - 40)]
  have hgle : (18.678 * T - T^2 / 234.5) / (257.14 + T) ≤ 2.6 := by
    rw [div_le_iff₀ hD]
    linarith
  have hEpos : 0 < 17.27 - (c + (18.678 * T - T^2 / 234.5) / (257.14 + T)) := by
    have h43 : (43:ℝ)/61078 ≤ 1 := by norm_num
    linarith
  have hLD : (c + (18.678 * T - T^2 / 234.5) / (257.14 + T)) * (257.14 + T) =
      c * (257.14 + T) + (18.678 * T - T^2 / 234.5) := by
    field_simp
    ring
  have hED : (17.27 - (c + (18.678 * T - T^2 / 234.5) / (257.14 + T))) * (257.14 + T) =
      17.27 * (257.14 + T) - c * (257.14 + T) - (18.678 * T - T^2 / 234.5) := by
    field_simp
    ring
  have hub : ((c + (18.678 * T - T^2 / 234.5) / (257.14 + T)) * 237.3) /
      (17.27 - (c + (18.678 * T - T^2 / 234.5) / (257.14 + T))) ≤ T + 1/10 := by
    rw [div_le_iff₀ hEpos]
    have key := polyI T c h1 h2 h3 h4
    have key2 : ((c + (18.678 * T - T^2 / 234.5) / (257.14 + T)) * 237.3) * (257.14 + T) ≤
        ((T + 1/10) * (17.27 - (c + (18.678 * T - T^2 / 234.5) / (257.14 + T)))) * (257.14 + T) := by
      calc ((c + (18.678 * T - T^2 / 234.5) / (257.14 + T)) * 237.3) * (257.14 + T)
          = 237.3 * ((c + (18.678 * T - T^2 / 234.5) / (257.14 + T)) * (257.14 + T)) := by ring
        _ = 237.3 * (c * (257.14 + T) + (18.678 * T - T^2 / 234.5)) := by rw [hLD]
        _ ≤ (T + 1/10) * (17.27 * (257.14 + T) - c * (257.14 + T) - (18.678 * T - T^2 / 234.5)) := key
        _ = (T + 1/10) * ((17.27 - (c + (18.678 * T - T^2 / 234.5) / (257.14 + T))) * (257.14 + T)) := by
            rw [hED]
        _ = ((T + 1/10) * (17.27 - (c + (18.678 * T - T^2 / 234.5) / (257.14 + T)))) * (257.14 + T) := by
            ring
    exact le_of_mul_le_mul_right key2 hD
  have hlb : T - 1/10 ≤ ((c + (18.678 * T - T^2 / 234.5) / (257.14 + T)) * 237.3) /
      (17.27 - (c + (18.678 * T - T^2 / 234.5) / (257.14 + T))) := by
    rw [le_div_iff₀ hEpos]
    have key := polyII T c h1 h2 h3 h4
    have key2 : ((T - 1/10) * (17.27 - (c + (18.678 * T - T^2 / 234.5) / (257.14 + T)))) * (257.14 + T) ≤
        ((c + (18.678 * T - T^2 / 234.5) / (257.14 + T)) * 237.3) * (257.14 + T) := by
      calc ((T - 1/10) * (17.27 - (c + (18.678 * T - T^2 / 234.5) / (257.14 + T)))) * (257.14 + T)
          = (T - 1/10) * ((17.27 - (c + (18.678 * T - T^2 / 234.5) / (257.14 + T))) * (257.14 + T)) := by
            ring
        _ = (T - 1/10) * (17.27 * (257.14 + T) - c * (257.14 + T) - (18.678 * T - T^2 / 234.5)) := by
            rw [hED]
        _ ≤ 237.3 * (c * (257.14 + T) + (18.678 * T - T^2 / 234.5)) := key
        _ = 237.3 * ((c + (18.678 * T - T^2 / 234.5) / (257.14 + T)) * (257.14 + T)) := by rw [hLD]
        _ = ((c + (18.678 * T - T^2 / 234.5) / (257.14 + T)) * 237.3) * (257.14 + T) := by ring
    exact le_of_mul_le_mul_right key2 hD
  rw [abs_le]
  constructor <;> linarith

/-- C9: over the realistic building-physics temperature range (-15 degC to
40 degC), `DewPoint (SaturationPressure T)` equals `T` to within 0.1 degC:
the dew point of saturated air is (approximately) its own temperature. -/
theorem C9_dewpoint_roundtrip (T : ℝ) (h1 : -15 ≤ T) (h2 : T ≤ 40) :
    |Psychrometrics.DewPoint (Psychrometrics.SaturationPressure T) - T| ≤ 1/10 := by
  rw [Psychrometrics.DewPoint, satP_log T h1]
  exact dew_formula_bound T _ h1 h2 log_const_lb log_const_ub

/-- Witness for C9 at 20 degC. -/
theorem C9_witness :
    (-15 : ℝ) ≤ 20 ∧ (20 : ℝ) ≤ 40 ∧
    |Psychrometrics.DewPoint (Psychrometrics.SaturationPressure 20) - 20| ≤ 1/10 :=
  ⟨by norm_num, by norm_num, C9_dewpoint_roundtrip 20 (by norm_num) (by norm_num)⟩

end UVal

end
